import Mathlib

/-!
# Verification of the opensanctions/graph dataset parsers

Shallow embedding of the three parser modules
(`datasets/cy_companies/parse.py`, `datasets/md_companies/parse.py`,
`datasets/de_offeneregister/parse.py`) and proofs about the claims made by
the natural-language specification.

Python strings are embedded as `List Char` (`Str`).  Python exceptions are
embedded as `Except Str`.  Emitted followthemoney entities/relationships
("proxies") are records of schema name, optional id, and a property list.
External library helpers (`zavod.context.make_id`, `context.make_slug`,
`followthemoney.util.make_entity_id`, `join_text`,
`fingerprints.generate`) are given deterministic stand-in definitions whose
only properties used in proofs are determinism and the handling of
`None`/empty parts, which mirrors the real libraries.
-/

deriving instance DecidableEq for Except

namespace OSGraph

/-- Python strings are modelled as lists of characters. -/
abbrev Str := List Char

/-- Embedding of Python `str.strip()`: drop whitespace at both ends. -/
def pyStrip (s : Str) : Str :=
  ((s.dropWhile Char.isWhitespace).reverse.dropWhile Char.isWhitespace).reverse

/-- Embedding of Python `str.lower()` (character-wise lowercasing; the
inputs in this repository are ASCII). -/
def pyLower (s : Str) : Str := s.map Char.toLower

/-- Worker for `splitSep`, structurally recursive on a fuel argument so
that the kernel can evaluate it (the fuel is at least the input length,
and every recursive call consumes at least one character). -/
def splitSepFuel (sep : Str) : Nat → Str → List Str
  | _, [] => [[]]
  | 0, s => [s]
  | fuel + 1, c :: rest =>
    if sep ≠ [] ∧ sep.isPrefixOf (c :: rest) then
      [] :: splitSepFuel sep fuel ((c :: rest).drop sep.length)
    else
      match splitSepFuel sep fuel rest with
      | [] => [[c]]
      | f :: t => (c :: f) :: t

/-- Embedding of Python `str.split(sep)` for a non-empty separator:
non-overlapping left-to-right splitting, keeping empty fragments
(`"".split(sep) = [""]`, `"a],".split("],") = ["a", ""]`). -/
def splitSep (sep : Str) (s : Str) : List Str :=
  splitSepFuel sep s.length s

/-- Embedding of Python `s.rsplit(sep, 1)` for a single-character
separator: split at the *last* occurrence of `sep`; `none` models the
`ValueError` raised by two-variable unpacking when `sep` is absent. -/
def rsplit1 (sep : Char) : Str → Option (Str × Str)
  | [] => none
  | c :: rest =>
    match rsplit1 sep rest with
    | some (l, r) => some (c :: l, r)
    | none => if c = sep then some (([] : Str), rest) else none

/-- A followthemoney entity or relationship proxy: schema name, optional
id, and property list (key/value pairs in insertion order). -/
structure Proxy where
  schema : Str
  id : Option Str
  props : List (Str × Str)
deriving DecidableEq, Repr

/-- `proxy.add(key, value)`: `None` values and empty strings are dropped
(followthemoney cleans values and ignores empties), everything else is
appended. -/
def addProp (ps : List (Str × Str)) (k : Str) (v : Option Str) : List (Str × Str) :=
  match v with
  | none => ps
  | some v => if v = [] then ps else ps ++ [(k, v)]

/-- Stand-in for zavod's `context.make_id(*parts)`: a deterministic digest
of the non-`None`, non-empty parts; `None` when no usable part remains
(mirroring the library's behaviour on empty input). -/
def make_id (parts : List (Option Str)) : Option Str :=
  if ((parts.filterMap id).filter (fun p => p ≠ [])) = [] then none
  else some ("mkid:".data ++
    List.intercalate ":".data ((parts.filterMap id).filter (fun p => p ≠ [])))

/-! ## md_companies (`datasets/md_companies/parse.py`) -/

/-- A spreadsheet cell value handed to the compound-field decomposers:
Python `None`, a string, or a stray integer from a malformed row. -/
inductive CellVal where
  | vnone : CellVal
  | vstr : Str → CellVal
  | vint : Int → CellVal
deriving DecidableEq, Repr

/-- The `try: director, role = director.rsplit("[", 1); role =
role.replace("]", "").strip() except ValueError: pass` block of
`parse_directors`: split the fragment at the last `[`; on success the tag
is the right part with `]` removed and stripped, otherwise the fragment is
unchanged and the role stays `None`. -/
def directorTagSplit (frag : Str) : Str × Option Str :=
  match rsplit1 '[' frag with
  | some (d, r) => (d, some (pyStrip (r.filter (fun c => c ≠ ']'))))
  | none => (frag, none)

/-- The trimmed body of a director fragment (`director.strip()` after the
tag split). -/
def directorBody (frag : Str) : Str := pyStrip (directorTagSplit frag).1

/-- One director sub-record: `none` when the trimmed body is shorter than
3 characters (the `if len(director) < 3: continue` guard), otherwise the
body together with its optional role tag. -/
def directorSubRecord (frag : Str) : Option (Str × Option Str) :=
  let role := (directorTagSplit frag).2
  let d := directorBody frag
  if d.length < 3 then none else some (d, role)

/-- The proxies emitted for one director fragment (loop body of
`parse_directors`): a `LegalEntity` followed by a `Directorship`, or
nothing when the fragment is dropped. -/
def directorEmits (companyId : Str) (frag : Str) : List Proxy :=
  match directorSubRecord frag with
  | none => []
  | some (director, role) =>
    let dirId := make_id [some companyId, some director]
    let dir : Proxy :=
      { schema := "LegalEntity".data, id := dirId,
        props := addProp [] "name".data (some director) }
    let dship : Proxy :=
      { schema := "Directorship".data,
        id := make_id [some "Directorship".data, some companyId, some director, role],
        props := addProp (addProp (addProp []
          "organization".data (some companyId))
          "director".data dirId)
          "role".data role }
    [dir, dship]

/-- `parse_directors(context, company, directors)`: splits on `"],"`.
There is no guard against integer input, so an integer raises
`AttributeError` (`int` has no `.split`).  Result: warnings emitted via
the logger, and the list of emitted proxies. -/
def parse_directors (companyId : Str) (directors : CellVal) :
    Except Str (List Str × List Proxy) :=
  match directors with
  | .vnone => .ok ([], [])
  | .vint _ => .error "AttributeError: int object has no attribute split".data
  | .vstr s => .ok ([], (splitSep "],".data s).flatMap (directorEmits companyId))

/-- One founder sub-record (loop body of `parse_founders` before
emission): remove all `)`, split out a percentage tag at the last `(` when
present, strip the body.  There is no minimum-length guard. -/
def founderSubRecord (frag : Str) : Str × Option Str :=
  let f := frag.filter (fun c => c ≠ ')')
  let (f, percentage) :=
    if f.contains '(' then
      match rsplit1 '(' f with
      | some (l, r) => (l, some r)
      | none => (f, none)
    else (f, none)
  (pyStrip f, percentage)

/-- The proxies emitted for one founder fragment: a `LegalEntity` followed
by an `Ownership`.  The Ownership id is derived from the edge kind, the
company id and the founder body only (the percentage tag is not part of
the id). -/
def founderEmits (companyId : Str) (frag : Str) : List Proxy :=
  let founder := (founderSubRecord frag).1
  let percentage := (founderSubRecord frag).2
  let foundId := make_id [some companyId, some founder]
  let found : Proxy :=
    { schema := "LegalEntity".data, id := foundId,
      props := addProp [] "name".data (some founder) }
  let own : Proxy :=
    { schema := "Ownership".data,
      id := make_id [some "Ownership".data, some companyId, some founder],
      props := addProp (addProp (addProp []
        "asset".data (some companyId))
        "owner".data foundId)
        "role".data percentage }
  [found, own]

/-- `parse_founders(context, company, founders)`: splits on `"),"`; an
integer input is caught by the `isinstance(founders, int)` guard, logged
as a warning, and yields zero sub-records. -/
def parse_founders (companyId : Str) (founders : CellVal) :
    Except Str (List Str × List Proxy) :=
  match founders with
  | .vnone => .ok ([], [])
  | .vint _ => .ok (["last line".data], [])
  | .vstr s => .ok ([], (splitSep "),".data s).flatMap (founderEmits companyId))

/-- One owner sub-record (loop body of `parse_owners`): remove all `)`,
split out a country tag at the last `(` when present, strip the body. -/
def ownerSubRecord (frag : Str) : Str × Option Str :=
  let o := frag.filter (fun c => c ≠ ')')
  let (o, country) :=
    if o.contains '(' then
      match rsplit1 '(' o with
      | some (l, r) => (l, some r)
      | none => (o, none)
    else (o, none)
  (pyStrip o, country)

/-- The proxies emitted for one owner fragment: a `LegalEntity` followed
by an `Ownership` with fixed role `"beneficiarilor efectivi"`.  As for
founders, the Ownership id ignores the tag (here a country). -/
def ownerEmits (companyId : Str) (frag : Str) : List Proxy :=
  let owner := (ownerSubRecord frag).1
  let country := (ownerSubRecord frag).2
  let boId := make_id [some companyId, some owner]
  let bo : Proxy :=
    { schema := "LegalEntity".data, id := boId,
      props := addProp (addProp [] "name".data (some owner)) "country".data country }
  let own : Proxy :=
    { schema := "Ownership".data,
      id := make_id [some "Ownership".data, some companyId, some owner],
      props := addProp (addProp (addProp []
        "asset".data (some companyId))
        "owner".data boId)
        "role".data (some "beneficiarilor efectivi".data) }
  [bo, own]

/-- `parse_owners(context, company, owners)`: splits on `"),"`.  Like
`parse_directors` it has no integer guard, so an integer raises
`AttributeError`. -/
def parse_owners (companyId : Str) (owners : CellVal) :
    Except Str (List Str × List Proxy) :=
  match owners with
  | .vnone => .ok ([], [])
  | .vint _ => .error "AttributeError: int object has no attribute split".data
  | .vstr s => .ok ([], (splitSep "),".data s).flatMap (ownerEmits companyId))

/-- One row of the md_companies spreadsheet, after header zipping. -/
structure MdRow where
  idno : Option Str
  name : Option Str
  address : Option Str
  regDate : Option Str
  liqDate : Option Str
  legalForm : Option Str
  directors : CellVal
  founders : CellVal
  owners : CellVal
deriving DecidableEq, Repr

/-- The company-id branch of `parse_company`: structured id from the IDNO
when present, opaque hash of name+address otherwise, `none` when neither
yields an id. -/
def mdCompanyId (row : MdRow) : Option Str :=
  match row.idno with
  | some idno => some ("oc-companies-md-".data ++ idno)
  | none => make_id [row.name, row.address]

/-- `parse_company(context, data)`: derive the company id via
`mdCompanyId` (error-log and emit nothing when it is `none`), run the
three decomposers, and emit the company *after* all sub-record proxies.
Result: warnings and the emission stream in order. -/
def parse_company (row : MdRow) : Except Str (List Str × List Proxy) :=
  match mdCompanyId row with
  | none => .ok (["Cannot generate key".data], [])
  | some cid =>
    let company : Proxy :=
      { schema := "Company".data, id := some cid,
        props := addProp (addProp (addProp (addProp (addProp (addProp []
          "name".data row.name)
          "incorporationDate".data row.regDate)
          "dissolutionDate".data row.liqDate)
          "jurisdiction".data (some "md".data))
          "address".data row.address)
          "legalForm".data row.legalForm }
    do
      let (w1, e1) ← parse_directors cid row.directors
      let (w2, e2) ← parse_founders cid row.founders
      let (w3, e3) ← parse_owners cid row.owners
      return (w1 ++ w2 ++ w3, e1 ++ e2 ++ e3 ++ [company])

/-! ## cy_companies (`datasets/cy_companies/parse.py`) -/

/-- The `TYPES` mapping of Cyprus organisation-type codes to
opencorporates registry prefixes. -/
def TYPES : List (Str × Str) :=
  [("C".data, "HE".data), ("P".data, "S".data), ("O".data, "AE".data),
   ("N".data, "BN".data), ("B".data, "B".data)]

/-- `company_id(org_type, reg_nr)`: lowercased concatenation
`f"oc-companies-cy-{TYPES[org_type]}{reg_nr}".lower()`; `none` models the
`KeyError` for an unrecognised code. -/
def company_id (org_type reg_nr : Str) : Option Str :=
  (TYPES.lookup org_type).map
    (fun oc => pyLower ("oc-companies-cy-".data ++ (oc ++ reg_nr)))

/-- A calendar date as produced by `datetime.strptime(...).date()`. -/
structure DDate where
  day : Nat
  month : Nat
  year : Nat
deriving DecidableEq, Repr

/-- Gregorian leap-year rule (used by `datetime` for day-of-month
validation). -/
def isLeap (y : Nat) : Bool := (y % 4 == 0 && y % 100 != 0) || y % 400 == 0

/-- Days in a month, as validated by `datetime`. -/
def daysInMonth (m y : Nat) : Nat :=
  if m = 2 then (if isLeap y then 29 else 28)
  else if m = 4 ∨ m = 6 ∨ m = 9 ∨ m = 11 then 30
  else 31

/-- Decimal value of an all-digit character list. -/
def digitsToNat (s : Str) : Nat :=
  s.foldl (fun a c => a * 10 + (c.toNat - 48)) 0

/-- Embedding of `datetime.strptime(text, "%d/%m/%Y")`: exactly three
`/`-separated components; day and month of one or two digits in range,
year of exactly four digits, and the day valid for the month; anything
else models the raised `ValueError`. -/
def strptime_dmY (s : Str) : Except Str DDate :=
  match splitSep "/".data s with
  | [d, m, y] =>
    if d.all Char.isDigit ∧ 1 ≤ d.length ∧ d.length ≤ 2
        ∧ m.all Char.isDigit ∧ 1 ≤ m.length ∧ m.length ≤ 2
        ∧ y.all Char.isDigit ∧ y.length = 4 then
      let dv := digitsToNat d
      let mv := digitsToNat m
      let yv := digitsToNat y
      if 1 ≤ mv ∧ mv ≤ 12 ∧ 1 ≤ dv ∧ dv ≤ daysInMonth mv yv then
        .ok ⟨dv, mv, yv⟩
      else .error ("ValueError: day is out of range".data)
    else .error ("ValueError: time data does not match format".data)
  | _ => .error ("ValueError: time data does not match format".data)

/-- `parse_date(text)`: `None` for `None` or whitespace-only input,
otherwise `strptime` with format `"%d/%m/%Y"` (whose failure raises). -/
def parse_date (text : Option Str) : Except Str (Option DDate) :=
  match text with
  | none => .ok none
  | some t => if pyStrip t = [] then .ok none else (strptime_dmY t).map some

/-- Textual rendering of a date for a proxy property. -/
def dateToStr (d : DDate) : Str :=
  (toString d.year ++ "-" ++ toString d.month ++ "-" ++ toString d.day).data

/-- One row of the Cyprus `organisations_*` CSV file. -/
structure CyRow where
  orgTypeCode : Str
  regNo : Str
  orgName : Str
  orgStatus : Str
  orgType : Str
  orgSubType : Str
  regDateRaw : Str
  statusDateRaw : Str
  addrSeqNo : Str
deriving DecidableEq, Repr

/-- The loop body of `parse_organisations` for one row: rows whose type
code is empty or the Greek trade-name marker are skipped; an unrecognised
type code models the `KeyError` from `TYPES[org_type]`; a bad date models
the `ValueError` from `parse_date`.  Both exceptions propagate. -/
def parse_organisation_row (addresses : List (Str × Str)) (row : CyRow) :
    Except Str (List Proxy) :=
  if row.orgTypeCode = [] ∨ row.orgTypeCode = "Εμπορική Επωνυμία".data then
    .ok []
  else
    match TYPES.lookup row.orgTypeCode with
    | none => .error ("KeyError".data ++ row.orgTypeCode)
    | some oc => do
      let cid := company_id row.orgTypeCode row.regNo
      let ocId := oc ++ row.regNo
      let ocUrl := "https://opencorporates.com/companies/cy/".data ++ ocId
      let legalForm :=
        if pyStrip row.orgSubType ≠ [] then
          row.orgType ++ " - ".data ++ row.orgSubType
        else row.orgType
      let regDate ← parse_date (some row.regDateRaw)
      let statusDate ← parse_date (some row.statusDateRaw)
      let entity : Proxy :=
        { schema := "Company".data, id := cid,
          props := addProp (addProp (addProp (addProp (addProp (addProp (addProp (addProp []
            "name".data (some row.orgName))
            "status".data (some row.orgStatus))
            (if row.orgTypeCode = "O".data then "country".data else "jurisdiction".data)
              (some "cy".data))
            "opencorporatesUrl".data (some ocUrl))
            "registrationNumber".data (some ocId))
            "registrationNumber".data (some (row.orgTypeCode ++ row.regNo)))
            "legalForm".data (some legalForm))
            "incorporationDate".data (regDate.map dateToStr)
            |> (fun ps => addProp ps "modifiedAt".data (statusDate.map dateToStr))
            |> (fun ps => addProp ps "address".data (addresses.lookup row.addrSeqNo)) }
      return [entity]

/-- `parse_organisations(context, rows, addresses)`: each row is processed
in turn; an exception in any row propagates and aborts the remaining
rows (there is no try/except in the loop). -/
def parse_organisations (addresses : List (Str × Str)) :
    List CyRow → Except Str (List Proxy)
  | [] => .ok []
  | r :: rest => do
    let ps ← parse_organisation_row addresses r
    let ps' ← parse_organisations addresses rest
    return ps ++ ps'

/-! ## de_offeneregister (`datasets/de_offeneregister/parse.py`)

The two `RE_PATTERNS` regular expressions are embedded through a small
backtracking regex engine with Python `re` semantics for the constructs
they use: greedy `*`/`+`/`?` over single-character classes, ordered
alternation, case-insensitive literals (`re.IGNORECASE`), and numbered
capturing groups.  `pat.match` anchors at the start of the input only. -/

/-- The character classes appearing in `RE_PATTERNS`:
`.` (anything but newline), `\w`, `\s`, `\d`, and `[\w\s-]`. -/
inductive CClass where
  | any
  | word
  | space
  | digit
  | wordSpaceDash
deriving DecidableEq, Repr

/-- Membership in a character class (ASCII reading of `\w`, which is all
the source data exercised by the claims uses). -/
def ccMatch : CClass → Char → Bool
  | .any, c => c ≠ '\n'
  | .word, c => c.isAlphanum || c = '_'
  | .space, c => c.isWhitespace
  | .digit, c => c.isDigit
  | .wordSpaceDash, c => c.isAlphanum || c = '_' || c.isWhitespace || c = '-'

/-- Regex abstract syntax: `lit` is a case-insensitive literal, `starC` a
greedy Kleene star over a character class, `opt` a greedy `?`, `group` a
numbered capturing group. -/
inductive RE where
  | eps
  | lit (l : Str)
  | cls (c : CClass)
  | seq (a b : RE)
  | alt (a b : RE)
  | opt (a : RE)
  | starC (c : CClass)
  | group (n : Nat) (a : RE)
deriving Repr

/-- Consume a case-insensitive literal, returning the remainder. -/
def dropLitCI : Str → Str → Option Str
  | [], s => some s
  | _ :: _, [] => none
  | l :: ls, c :: cs => if l.toLower = c.toLower then dropLitCI ls cs else none

/-- The remainders after consuming a maximal-to-empty run of class
characters, longest consumed run first (greedy order for `*`). -/
def ccRemainders (c : CClass) : Str → List Str
  | [] => [[]]
  | ch :: rest =>
    if ccMatch c ch then ccRemainders c rest ++ [ch :: rest]
    else [ch :: rest]

/-- Captured groups: group number to captured substring, later captures
overwriting earlier ones. -/
abbrev Caps := List (Nat × Str)

/-- Record the capture of group `n`. -/
def setCap (n : Nat) (v : Str) (caps : Caps) : Caps :=
  (n, v) :: caps.filter (fun p => p.1 ≠ n)

/-- Read back a capture. -/
def getCap (n : Nat) (caps : Caps) : Option Str := caps.lookup n

/-- Backtracking matcher in continuation-passing style, implementing
Python `re` priority: alternation tries the left branch first, `*`, `+`
and `?` are greedy, the first overall success wins. -/
def matchRE : RE → Str → Caps → (Str → Caps → Option Caps) → Option Caps
  | .eps, s, caps, k => k s caps
  | .lit l, s, caps, k =>
    match dropLitCI l s with
    | some s' => k s' caps
    | none => none
  | .cls c, s, caps, k =>
    match s with
    | [] => none
    | ch :: rest => if ccMatch c ch then k rest caps else none
  | .seq a b, s, caps, k =>
    matchRE a s caps (fun s' caps' => matchRE b s' caps' k)
  | .alt a b, s, caps, k =>
    (matchRE a s caps k).orElse (fun _ => matchRE b s caps k)
  | .opt a, s, caps, k =>
    (matchRE a s caps k).orElse (fun _ => k s caps)
  | .starC c, s, caps, k => (ccRemainders c s).findSome? (fun s' => k s' caps)
  | .group n a, s, caps, k =>
    matchRE a s caps (fun s' caps' =>
      k s' (setCap n (s.take (s.length - s'.length)) caps'))

/-- Sequence a list of regexes. -/
def reSeq (l : List RE) : RE := l.foldr RE.seq RE.eps

/-- Greedy `+` over a character class: one mandatory character then a
greedy star. -/
def rePlus (c : CClass) : RE := RE.seq (RE.cls c) (RE.starC c)

/-- The alternation `(HRA|HRB|VR|PR|GnR)` in source order. -/
def regTypeAlt : RE :=
  .alt (.lit "HRA".data) (.alt (.lit "HRB".data)
    (.alt (.lit "VR".data) (.alt (.lit "PR".data) (.lit "GnR".data))))

/-- Group numbering shared by both patterns: 1 = `name`, 2 = `city`,
3 = `reg`, 4 = `reg_type`, 5 = `reg_nr`, 6 = `summary`. -/
def patternWithCity : RE := reSeq [
  .group 1 (.starC .any),
  .lit ",".data, .cls .space,
  .group 2 (rePlus .wordSpaceDash),
  .cls .space, .lit "(".data,
  rePlus .word, .lit "gericht".data, .cls .space,
  .group 3 (rePlus .any), .cls .space,
  .group 4 regTypeAlt, .cls .space,
  .group 5 (rePlus .digit),
  .lit ")".data, .opt (.lit ",".data), .opt (.cls .space),
  .group 6 (.starC .any)]

/-- The cityless second pattern of `RE_PATTERNS`. -/
def patternNoCity : RE := reSeq [
  .group 1 (.starC .any),
  .cls .space, .lit "(".data,
  rePlus .word, .lit "gericht".data, .cls .space,
  .group 3 (rePlus .any), .cls .space,
  .group 4 regTypeAlt, .cls .space,
  .group 5 (rePlus .digit),
  .lit ")".data, .opt (.lit ",".data), .opt (.cls .space),
  .group 6 (.starC .any)]

/-- `RE_PATTERNS`, most specific first. -/
def RE_PATTERNS : List RE := [patternWithCity, patternNoCity]

/-- Run one pattern as `pat.match(name)` (anchored at the start, the rest
of the input unconstrained) and return the captures. -/
def reMatch (pat : RE) (s : Str) : Option Caps :=
  matchRE pat s [] (fun _ caps => some caps)

/-- The `groupdict()` of a successful match. -/
structure OfficerRef where
  name : Str
  city : Option Str
  reg : Str
  reg_type : Str
  reg_nr : Str
  summary : Str
deriving DecidableEq, Repr

/-- Assemble the named groups from the captures (group 2, `city`, is
absent for the cityless pattern). -/
def capsToRef (caps : Caps) : OfficerRef :=
  { name := (getCap 1 caps).getD [],
    city := getCap 2 caps,
    reg := (getCap 3 caps).getD [],
    reg_type := (getCap 4 caps).getD [],
    reg_nr := (getCap 5 caps).getD [],
    summary := (getCap 6 caps).getD [] }

/-- `parse_officer_company_name(name)`: try the ordered patterns, return
the first match's named groups, `none` when no pattern matches.  (The
source's `lru_cache` memoization has no observable effect on a pure
function.) -/
def parse_officer_company_name (name : Str) : Option OfficerRef :=
  (RE_PATTERNS.findSome? (fun pat => reMatch pat name)).map capsToRef

/-- The `SCHEMES` mapping from register-type codes to (schema, legal
form). -/
def SCHEMES : List (Str × (Str × Str)) :=
  [("HRA".data, ("Company".data, "Unternehmen".data)),
   ("HRB".data, ("Company".data, "Kapitalgesellschaft".data)),
   ("VR".data, ("Organization".data, "Verein".data)),
   ("PR".data, ("Organization".data, "Partnerschaft (Personengesellschaft)".data)),
   ("GnR".data, ("Organization".data, "Genossenschaft".data))]

/-- The `REL_SCHEMS` mapping from relationship-role codes to edge
kinds. -/
def REL_SCHEMS : List (Str × Str) :=
  [("Geschäftsführer".data, "Directorship".data),
   ("Inhaber".data, "Ownership".data),
   ("Liquidator".data, "Directorship".data),
   ("Persönlich haftender Gesellschafter".data, "Ownership".data),
   ("Prokurist".data, "Directorship".data),
   ("Vorstand".data, "Directorship".data)]

/-- The `MAPPING` table translating `other_attributes` keys to canonical
property names. -/
def MAPPING : List (Str × Str) :=
  [("firstname".data, "firstName".data),
   ("lastname".data, "lastName".data),
   ("city".data, "address".data),
   ("start_date".data, "startDate".data),
   ("end_date".data, "endDate".data),
   ("position".data, "role".data),
   ("flag".data, "description".data)]

/-- Stand-in for `followthemoney.util.join_text(*parts)`: join the
non-`None`, non-empty parts with a space, `None` when nothing
survives. -/
def join_text (parts : List (Option Str)) : Option Str :=
  let ps := (parts.filterMap id).filter (fun p => p ≠ [])
  if ps = [] then none else some (List.intercalate " ".data ps)

/-- Stand-in for `followthemoney.util.make_entity_id(*parts)`: a
deterministic digest of the non-`None`, non-empty parts, `None` when no
part survives. -/
def make_entity_id (parts : List (Option Str)) : Option Str :=
  let ps := (parts.filterMap id).filter (fun p => p ≠ [])
  if ps = [] then none
  else some ("eid:".data ++ List.intercalate ".".data ps)

/-- Stand-in for zavod's `context.make_slug(*parts)`: dataset-scoped slug
of the non-`None`, non-empty parts, `None` when no part survives. -/
def make_slug (parts : List (Option Str)) : Option Str :=
  if ((parts.filterMap id).filter (fun p => p ≠ [])) = [] then none
  else some ("de_offeneregister-".data ++
    List.intercalate "-".data ((parts.filterMap id).filter (fun p => p ≠ [])))

/-- Stand-in for `fingerprints.generate(name)`: a normalized fingerprint,
`None` for a name that normalizes to nothing. -/
def fp (s : Str) : Option Str :=
  let t := pyLower (pyStrip s)
  if t = [] then none else some t

/-- The followthemoney schema fact used by `make_rel`'s
`company.schema.is_a("Asset")` test: of the schemata produced by
`make_company`, `Company` descends from `Asset` and `Organization` does
not. -/
def schemaIsAsset (schema : Str) : Bool := schema = "Company".data

/-- Apply the `MAPPING`-filtered `other_attributes` of a record to a
property list (the `for key, value in data.get("other_attributes", ...)`
loops). -/
def applyMapping (ps : List (Str × Str)) (other : List (Str × Str)) :
    List (Str × Str) :=
  other.foldl (fun acc kv =>
    match MAPPING.lookup kv.1 with
    | some ck => addProp acc ck (some kv.2)
    | none => acc) ps

/-- An officer record from the `officers` array (after the `type`, `name`
and `position` fields are read). -/
structure OfficerData where
  type_ : Str
  name : Str
  position : Str
  other_attributes : List (Str × Str)
deriving DecidableEq, Repr

/-- `make_rel(context, company, officer, data, summary)`: look up the edge
kind for the role code (`REL_SCHEMS[type_]`, whose absence models the
uncaught `KeyError`), build an `Ownership` when the kind is Ownership and
the company schema descends from `Asset`, otherwise a `Directorship`;
the id is a slug of `("rel", make_entity_id(company.id, officer.id,
type_))`; role, summary and the mapped `other_attributes` are added; the
edge proxy is emitted (returned). -/
def make_rel (company officer : Proxy) (position : Str)
    (other : List (Str × Str)) (summary : Option Str) : Except Str Proxy :=
  match REL_SCHEMS.lookup position with
  | none => .error ("KeyError".data ++ position)
  | some schema =>
    let base : Proxy :=
      if schema = "Ownership".data ∧ schemaIsAsset company.schema then
        { schema := "Ownership".data, id := none,
          props := addProp (addProp [] "owner".data officer.id)
            "asset".data company.id }
      else
        { schema := "Directorship".data, id := none,
          props := addProp (addProp [] "director".data officer.id)
            "organization".data company.id }
    let rid := make_slug [some "rel".data,
      make_entity_id [company.id, officer.id, some position]]
    .ok { base with
      id := rid
      props := applyMapping
        (addProp (addProp base.props "role".data (some position))
          "summary".data summary) other }

/-- The opaque-name fallback officer of `make_officer_and_rel`'s
`company` branch: the whole free text becomes the name, the id is a slug
of an opaque hash scoped by the parent company's id. -/
def fallbackCompanyOfficer (company : Proxy) (name : Str) : Proxy :=
  { schema := "Company".data,
    id := make_slug [some "officer".data, make_entity_id [company.id, fp name]],
    props := addProp [] "name".data (some name) }

/-- The officer-construction part of `make_officer_and_rel`: warnings, the
officer proxy (before the `other_attributes` mapping), and the
relationship summary, according to the officer's type (`company` with a
successful reference extraction, `company` fallback, `person`, or unknown
type which is logged and handled as a `LegalEntity`). -/
def mkOfficer (company : Proxy) (data : OfficerData) :
    List Str × Proxy × Option Str :=
  if data.type_ = "company".data then
      match parse_officer_company_name data.name with
      | some pd =>
        let reg : List (Option Str) := [some pd.reg, some pd.reg_type, some pd.reg_nr]
        ([],
         { schema := "Company".data,
           id := make_slug reg,
           props := addProp (addProp (addProp (addProp []
             "name".data (some pd.name))
             "address".data pd.city)
             "registrationNumber".data (join_text reg))
             "registrationNumber".data (join_text [some pd.reg_type, some pd.reg_nr]) },
         some pd.summary)
      | none =>
        ([], fallbackCompanyOfficer company data.name, none)
    else if data.type_ = "person".data then
      ([],
       { schema := "Person".data,
         id := make_slug [some "officer".data,
           make_entity_id [company.id, fp data.name]],
         props := addProp [] "name".data (some data.name) },
       none)
    else
      (["Unknown type".data ++ data.type_],
       { schema := "LegalEntity".data,
         id := make_slug [some "officer".data,
           make_entity_id [company.id, fp data.name]],
         props := addProp [] "name".data (some data.name) },
       none)

/-- The finished officer proxy: the `mkOfficer` proxy with the mapped
`other_attributes` added. -/
def officerProxyOf (company : Proxy) (data : OfficerData) : Proxy :=
  { (mkOfficer company data).2.1 with
    props := applyMapping (mkOfficer company data).2.1.props data.other_attributes }

/-- `make_officer_and_rel(context, company, data)`: build the officer
proxy, apply the `other_attributes` mapping, then *first* emit the
relationship via `make_rel` and only afterwards emit the officer itself.
Result: warnings and the emission stream in order. -/
def make_officer_and_rel (company : Proxy) (data : OfficerData) :
    Except Str (List Str × List Proxy) := do
  let rel ← make_rel company (officerProxyOf company data) data.position
    data.other_attributes (mkOfficer company data).2.2
  return ((mkOfficer company data).1, [rel, officerProxyOf company data])

/-- One record of the source JSONL file (the fields `make_company`
reads). -/
structure DeCompanyRecord where
  registerArt : Str
  registerNummer : Str
  nativeCompanyNumber : Str
  currentStatus : Option Str
  companyNumber : Str
  jurisdictionCode : Str
  name : Str
  registeredAddress : Option Str
  previousNames : List Str
  retrievedAt : Str
deriving DecidableEq, Repr

/-- `make_company(context, data)`: `SCHEMES[reg_art]` (absence models the
uncaught `KeyError`), then the company proxy with its slug id from the
native company number; the proxy is emitted and returned. -/
def make_company (r : DeCompanyRecord) : Except Str Proxy :=
  match SCHEMES.lookup r.registerArt with
  | none => .error ("KeyError".data ++ r.registerArt)
  | some (schema, legalForm) =>
    .ok { schema := schema,
          id := make_slug [some r.nativeCompanyNumber],
          props :=
            (r.previousNames.foldl
              (fun ps n => addProp ps "previousName".data (some n))
              (addProp (addProp (addProp (addProp (addProp (addProp (addProp []
                "legalForm".data (some legalForm))
                "registrationNumber".data (some r.nativeCompanyNumber))
                "registrationNumber".data
                  (some (r.registerArt ++ " ".data ++ r.registerNummer)))
                "status".data r.currentStatus)
                "opencorporatesUrl".data
                  (some ("https://opencorporates.com/companies/de/".data
                    ++ r.companyNumber)))
                "jurisdiction".data (some r.jurisdictionCode))
                "name".data (some r.name))
              |> (fun ps => addProp ps "address".data r.registeredAddress))
            |> (fun ps => addProp ps "retrievedAt".data (some r.retrievedAt)) }

/-- `parse_record(context, record)`: emit the company, then for each
officer the pair emitted by `make_officer_and_rel`. -/
def parse_record (r : DeCompanyRecord) (officers : List OfficerData) :
    Except Str (List Str × List Proxy) := do
  let company ← make_company r
  let steps ← officers.mapM (make_officer_and_rel company)
  return ((steps.map Prod.fst).flatten, company :: (steps.map Prod.snd).flatten)

/-! ## The ordering predicate of claim C1 -/

/-- Schema names that denote relationships in these parsers. -/
def isRelKind (schema : Str) : Bool :=
  schema = "Directorship".data ∨ schema = "Ownership".data

/-- The entity ids a relationship proxy references as its endpoints
(source and target): the values of its `director`/`organization`/
`owner`/`asset` properties. -/
def refIds (p : Proxy) : List Str :=
  (p.props.filter (fun kv =>
    kv.1 = "director".data ∨ kv.1 = "organization".data ∨
    kv.1 = "owner".data ∨ kv.1 = "asset".data)).map Prod.snd

/-- The ordering property asserted by the spec: every id referenced by a
relationship in the stream is the id of an entity emitted at or before
that relationship. -/
def claimOrderingHolds (stream : List Proxy) : Bool :=
  stream.enum.all (fun ip =>
    if isRelKind ip.2.schema then
      (refIds ip.2).all (fun rid =>
        (stream.take (ip.1 + 1)).any (fun q =>
          ¬ isRelKind q.schema ∧ q.id = some rid))
    else true)

/-! ## Concrete example inputs used in counterexamples and witnesses -/

/-- A well-formed de_offeneregister company record. -/
def deRecordEx : DeCompanyRecord :=
  { registerArt := "HRB".data, registerNummer := "1234".data,
    nativeCompanyNumber := "Hamburg HRB 1234".data, currentStatus := none,
    companyNumber := "X1".data, jurisdictionCode := "de".data,
    name := "Test GmbH".data, registeredAddress := none,
    previousNames := [], retrievedAt := "2019-01-01".data }

/-- A person officer with a recognised role code. -/
def officerPersonEx : OfficerData :=
  { type_ := "person".data, name := "Max Mustermann".data,
    position := "Prokurist".data, other_attributes := [] }

/-- A parent company proxy as produced by `make_company`. -/
def deParentEx : Proxy :=
  { schema := "Company".data, id := some "de_offeneregister-x".data, props := [] }

/-- A Cyprus organisations row whose registration date does not parse. -/
def cyRowBadDate : CyRow :=
  { orgTypeCode := "C".data, regNo := "1".data, orgName := "Foo Ltd".data,
    orgStatus := "active".data, orgType := "Company".data, orgSubType := [],
    regDateRaw := "2020-01-01".data, statusDateRaw := [], addrSeqNo := [] }

/-- A Cyprus organisations row with well-formed dates. -/
def cyRowGood : CyRow :=
  { orgTypeCode := "C".data, regNo := "2".data, orgName := "Bar Ltd".data,
    orgStatus := "active".data, orgType := "Company".data, orgSubType := [],
    regDateRaw := "05/11/1999".data, statusDateRaw := [], addrSeqNo := [] }

/-- An officer proxy used to probe `make_rel` directly. -/
def officerProxyEx : Proxy :=
  { schema := "Person".data, id := some "de_offeneregister-p1".data, props := [] }

/-- The emission stream of `make_officer_and_rel` on the example person
officer. -/
def c1StreamEx : List Proxy :=
  ((make_officer_and_rel deParentEx officerPersonEx).toOption.getD ([], [])).2

/-! ## Helper lemmas -/

/-- A successful `make_slug` never yields the empty string. -/
theorem make_slug_ne_nil {ps : List (Option Str)} {s : Str}
    (h : make_slug ps = some s) : s ≠ [] := by
  unfold make_slug at h
  split at h
  · exact absurd h (by simp)
  · simp only [Option.some.injEq] at h
    subst h
    simp

/-- A successful `make_id` never yields the empty string. -/
theorem make_id_ne_nil {ps : List (Option Str)} {s : Str}
    (h : make_id ps = some s) : s ≠ [] := by
  unfold make_id at h
  split at h
  · exact absurd h (by simp)
  · simp only [Option.some.injEq] at h
    subst h
    simp

/-- `addProp` only appends, so membership in the property list is
preserved. -/
theorem mem_addProp {x : Str × Str} {ps : List (Str × Str)} (k : Str)
    (v : Option Str) (h : x ∈ ps) : x ∈ addProp ps k v := by
  cases v with
  | none => simpa [addProp] using h
  | some w =>
    by_cases hw : w = []
    · simpa [addProp, hw] using h
    · simp only [addProp, if_neg hw]
      exact List.mem_append_left _ h

/-- `addProp` records a non-empty value. -/
theorem addProp_self {ps : List (Str × Str)} {k v : Str} (hv : v ≠ []) :
    (k, v) ∈ addProp ps k (some v) := by
  simp only [addProp, if_neg hv]
  exact List.mem_append_right _ (by simp)

/-- `applyMapping` only appends, so membership in the property list is
preserved. -/
theorem mem_applyMapping {x : Str × Str} {ps : List (Str × Str)}
    (other : List (Str × Str)) (h : x ∈ ps) : x ∈ applyMapping ps other := by
  unfold applyMapping
  induction other generalizing ps with
  | nil => exact h
  | cons kv rest ih =>
    simp only [List.foldl_cons]
    apply ih
    cases hm : MAPPING.lookup kv.1 with
    | none => simpa [hm] using h
    | some ck => simpa [hm] using mem_addProp ck (some kv.2) h

/-- A successful `do rel ← m; return (warns, [rel, proxy])` always yields
a two-element stream. -/
theorem bind_pair_len {m : Except Str Proxy} {warns : List Str} {proxy : Proxy}
    {w : List Str} {s : List Proxy}
    (h : (do
        let rel ← m
        return (warns, [rel, proxy]) : Except Str (List Str × List Proxy)) =
      .ok (w, s)) :
    s.length = 2 := by
  cases m with
  | error e => cases h
  | ok rel =>
    cases h
    rfl

/-- Lowercasing leaves a digit unchanged. -/
theorem toLower_of_isDigit {c : Char} (h : c.isDigit = true) : c.toLower = c := by
  simp only [Char.isDigit, Bool.and_eq_true, decide_eq_true_eq] at h
  unfold Char.toLower
  rw [if_neg]
  intro hc
  have h2 : c.val ≤ 57 := h.2
  have h3 : c.toNat ≤ 57 := by
    have hb := UInt32.le_def.mp h2
    have hn := BitVec.le_def.mp hb
    simpa [Char.toNat, UInt32.toNat] using hn
  omega

/-- Lowercasing leaves an all-digit string unchanged. -/
theorem pyLower_digits {n : Str} (h : n.all Char.isDigit = true) : pyLower n = n := by
  unfold pyLower
  induction n with
  | nil => rfl
  | cons c cs ih =>
    simp only [List.all_cons, Bool.and_eq_true] at h
    simp [toLower_of_isDigit h.1, ih h.2]

/-- A successful association-list lookup certifies membership. -/
theorem lookup_mem_pair {α : Type} {l : List (Str × α)} {k : Str} {b : α}
    (h : l.lookup k = some b) : (k, b) ∈ l := by
  obtain ⟨l1, l2, rfl, -⟩ := List.lookup_eq_some_iff.mp h
  simp

/-- `company_id` on a recognised code, written with the lowercasing
distributed over the three concatenated pieces. -/
theorem company_id_some {t oc : Str} (h : TYPES.lookup t = some oc) (n : Str) :
    company_id t n =
      some (pyLower "oc-companies-cy-".data ++ (pyLower oc ++ pyLower n)) := by
  simp [company_id, h, pyLower, List.map_append]

/-- Two appends with distinct head characters differ. -/
theorem append_ne_headD {a b n1 n2 : Str}
    (ha : a ≠ []) (hb : b ≠ []) (h : a.headD ' ' ≠ b.headD ' ') :
    a ++ n1 ≠ b ++ n2 := by
  cases a with
  | nil => exact absurd rfl ha
  | cons x xs =>
    cases b with
    | nil => exact absurd rfl hb
    | cons y ys =>
      simp only [List.headD_cons] at h
      simp only [List.cons_append, ne_eq, List.cons.injEq, not_and]
      intro hxy
      exact absurd hxy h

/-- The one honestly overlapping code pair of `TYPES`: `B` (prefix `b`)
and `N` (prefix `bn`) cannot produce the same id when the registration
numbers are digits, since a digit tail never begins with `n`. -/
theorem b_bn_ne {n1 n2 : Str} (d1 : n1.all Char.isDigit = true) :
    pyLower "B".data ++ n1 ≠ pyLower "BN".data ++ n2 := by
  rw [show pyLower "B".data = ['b'] from by decide,
      show pyLower "BN".data = ['b', 'n'] from by decide]
  intro e
  simp only [List.cons_append, List.nil_append, List.cons.injEq, true_and] at e
  rw [e] at d1
  simp [List.all_cons] at d1

/-- `>>=` on a successful `Except` computation. -/
theorem except_bind_ok {α β : Type} {a : α} {f : α → Except Str β} :
    ((Except.ok a : Except Str α) >>= f) = f a := rfl

/-- `>>=` on a failed `Except` computation propagates the error. -/
theorem except_bind_er {α β : Type} {e : Str} {f : α → Except Str β} :
    ((Except.error e : Except Str α) >>= f) = Except.error e := rfl

/-- A successful `make_rel` yields a relationship proxy that records the
officer's id under `director` or `owner`. -/
theorem make_rel_spec {c off : Proxy} {pos : Str} {other : List (Str × Str)}
    {summ : Option Str} {rel : Proxy}
    (h : make_rel c off pos other summ = .ok rel) :
    isRelKind rel.schema = true ∧
    ∀ i, off.id = some i → i ≠ [] →
      ("director".data, i) ∈ rel.props ∨ ("owner".data, i) ∈ rel.props := by
  unfold make_rel at h
  cases hl : REL_SCHEMS.lookup pos with
  | none => rw [hl] at h; cases h
  | some schema =>
    rw [hl] at h
    dsimp only at h
    by_cases hb : schema = "Ownership".data ∧ schemaIsAsset c.schema = true
    · rw [if_pos hb] at h
      cases h
      refine ⟨rfl, ?_⟩
      intro i hi hne
      rw [hi]
      exact Or.inr (mem_applyMapping other (mem_addProp _ _ (mem_addProp _ _
        (mem_addProp _ _ (addProp_self hne)))))
    · rw [if_neg hb] at h
      cases h
      refine ⟨rfl, ?_⟩
      intro i hi hne
      rw [hi]
      exact Or.inl (mem_applyMapping other (mem_addProp _ _ (mem_addProp _ _
        (mem_addProp _ _ (addProp_self hne)))))

/-- The `mkOfficer` proxy is never a relationship and always carries a
slug id. -/
theorem mkOfficer_spec (c : Proxy) (d : OfficerData) :
    isRelKind (mkOfficer c d).2.1.schema = false ∧
    ∃ args, (mkOfficer c d).2.1.id = make_slug args := by
  unfold mkOfficer
  by_cases h1 : d.type_ = "company".data
  · rw [if_pos h1]
    cases hp : parse_officer_company_name d.name with
    | some pd =>
      exact ⟨rfl, [some pd.reg, some pd.reg_type, some pd.reg_nr], rfl⟩
    | none =>
      exact ⟨rfl, [some "officer".data, make_entity_id [c.id, fp d.name]], rfl⟩
  · rw [if_neg h1]
    by_cases h2 : d.type_ = "person".data
    · rw [if_pos h2]
      exact ⟨rfl, [some "officer".data, make_entity_id [c.id, fp d.name]], rfl⟩
    · rw [if_neg h2]
      exact ⟨rfl, [some "officer".data, make_entity_id [c.id, fp d.name]], rfl⟩

/-- A successful `make_officer_and_rel` emits exactly the relationship
followed by the officer it references. -/
theorem make_officer_and_rel_stream {c : Proxy} {d : OfficerData}
    {w : List Str} {s : List Proxy}
    (h : make_officer_and_rel c d = .ok (w, s)) :
    s.length = 2 ∧
    s[1]? = some (officerProxyOf c d) ∧
    isRelKind (officerProxyOf c d).schema = false ∧
    ∀ rel, s[0]? = some rel →
      isRelKind rel.schema = true ∧
      ∀ i, (officerProxyOf c d).id = some i →
        ("director".data, i) ∈ rel.props ∨ ("owner".data, i) ∈ rel.props := by
  unfold make_officer_and_rel at h
  cases hr : make_rel c (officerProxyOf c d) d.position d.other_attributes
      (mkOfficer c d).2.2 with
  | error e => rw [hr, except_bind_er] at h; cases h
  | ok rel0 =>
    rw [hr, except_bind_ok] at h
    cases h
    have hspec := make_rel_spec hr
    refine ⟨rfl, rfl, ?_, ?_⟩
    · have := (mkOfficer_spec c d).1
      simpa [officerProxyOf] using this
    · intro rel hrel0
      simp only [List.getElem?_cons_zero, Option.some.injEq] at hrel0
      subst hrel0
      refine ⟨hspec.1, ?_⟩
      intro i hi
      obtain ⟨args, hargs⟩ := (mkOfficer_spec c d).2
      have hid : (officerProxyOf c d).id = make_slug args := by
        simpa [officerProxyOf] using hargs
      have hne : i ≠ [] := make_slug_ne_nil (hid ▸ hi)
      exact hspec.2 i hi hne

/-- A company emitted by `make_company` is never a relationship (its
schema is `Company` or `Organization`). -/
theorem make_company_schema {r : DeCompanyRecord} {p : Proxy}
    (h : make_company r = .ok p) : isRelKind p.schema = false := by
  unfold make_company at h
  cases hl : SCHEMES.lookup r.registerArt with
  | none => rw [hl] at h; cases h
  | some pair =>
    obtain ⟨sch, lf⟩ := pair
    rw [hl] at h
    dsimp only at h
    cases h
    have hm := lookup_mem_pair hl
    simp only [SCHEMES, List.mem_cons, List.not_mem_nil, or_false,
      Prod.mk.injEq] at hm
    rcases hm with ⟨-, rfl, -⟩|⟨-, rfl, -⟩|⟨-, rfl, -⟩|⟨-, rfl, -⟩|⟨-, rfl, -⟩ <;> rfl

/-- The `Directorship` emitted for a director fragment records the
company id under `organization`. -/
theorem directorEmits_rel_props {cid frag : Str} (hcid : cid ≠ []) {p : Proxy}
    (hp : p ∈ directorEmits cid frag) (hrel : isRelKind p.schema = true) :
    ("organization".data, cid) ∈ p.props := by
  unfold directorEmits at hp
  cases hd : directorSubRecord frag with
  | none => rw [hd] at hp; cases hp
  | some br =>
    obtain ⟨b, r⟩ := br
    rw [hd] at hp
    dsimp only at hp
    simp only [List.mem_cons, List.not_mem_nil, or_false] at hp
    rcases hp with rfl | rfl
    · have hrel2 : isRelKind "LegalEntity".data = true := hrel
      exact absurd hrel2 (by decide)
    · dsimp only
      exact mem_addProp _ _ (mem_addProp _ _ (addProp_self hcid))

/-- The `Ownership` emitted for a founder fragment records the company id
under `asset`. -/
theorem founderEmits_rel_props {cid frag : Str} (hcid : cid ≠ []) {p : Proxy}
    (hp : p ∈ founderEmits cid frag) (hrel : isRelKind p.schema = true) :
    ("asset".data, cid) ∈ p.props := by
  unfold founderEmits at hp
  dsimp only at hp
  simp only [List.mem_cons, List.not_mem_nil, or_false] at hp
  rcases hp with rfl | rfl
  · have hrel2 : isRelKind "LegalEntity".data = true := hrel
    exact absurd hrel2 (by decide)
  · dsimp only
    exact mem_addProp _ _ (mem_addProp _ _ (addProp_self hcid))

/-- The `Ownership` emitted for an owner fragment records the company id
under `asset`. -/
theorem ownerEmits_rel_props {cid frag : Str} (hcid : cid ≠ []) {p : Proxy}
    (hp : p ∈ ownerEmits cid frag) (hrel : isRelKind p.schema = true) :
    ("asset".data, cid) ∈ p.props := by
  unfold ownerEmits at hp
  dsimp only at hp
  simp only [List.mem_cons, List.not_mem_nil, or_false] at hp
  rcases hp with rfl | rfl
  · have hrel2 : isRelKind "LegalEntity".data = true := hrel
    exact absurd hrel2 (by decide)
  · dsimp only
    exact mem_addProp _ _ (mem_addProp _ _ (addProp_self hcid))

/-- Every relationship emitted by `parse_directors` references the
company. -/
theorem parse_directors_rel {cid : Str} {dv : CellVal}
    {res : List Str × List Proxy}
    (h : parse_directors cid dv = .ok res) (hcid : cid ≠ []) :
    ∀ p ∈ res.2, isRelKind p.schema = true →
      ("organization".data, cid) ∈ p.props := by
  cases dv with
  | vnone => cases h; intro p hp; cases hp
  | vint n => cases h
  | vstr s0 =>
    cases h
    intro p hp hrel
    simp only [List.mem_flatMap] at hp
    obtain ⟨frag, -, hpf⟩ := hp
    exact directorEmits_rel_props hcid hpf hrel

/-- Every relationship emitted by `parse_founders` references the
company. -/
theorem parse_founders_rel {cid : Str} {dv : CellVal}
    {res : List Str × List Proxy}
    (h : parse_founders cid dv = .ok res) (hcid : cid ≠ []) :
    ∀ p ∈ res.2, isRelKind p.schema = true → ("asset".data, cid) ∈ p.props := by
  cases dv with
  | vnone => cases h; intro p hp; cases hp
  | vint n => cases h; intro p hp; cases hp
  | vstr s0 =>
    cases h
    intro p hp hrel
    simp only [List.mem_flatMap] at hp
    obtain ⟨frag, -, hpf⟩ := hp
    exact founderEmits_rel_props hcid hpf hrel

/-- Every relationship emitted by `parse_owners` references the
company. -/
theorem parse_owners_rel {cid : Str} {dv : CellVal}
    {res : List Str × List Proxy}
    (h : parse_owners cid dv = .ok res) (hcid : cid ≠ []) :
    ∀ p ∈ res.2, isRelKind p.schema = true → ("asset".data, cid) ∈ p.props := by
  cases dv with
  | vnone => cases h; intro p hp; cases hp
  | vint n => cases h
  | vstr s0 =>
    cases h
    intro p hp hrel
    simp only [List.mem_flatMap] at hp
    obtain ⟨frag, -, hpf⟩ := hp
    exact ownerEmits_rel_props hcid hpf hrel

/-- A derived md company id is never the empty string. -/
theorem mdCompanyId_ne_nil {row : MdRow} {cid : Str}
    (h : mdCompanyId row = some cid) : cid ≠ [] := by
  unfold mdCompanyId at h
  cases hi : row.idno with
  | some idno => rw [hi] at h; cases h; simp
  | none => rw [hi] at h; exact make_id_ne_nil h

/-- A successful non-empty `parse_company` stream ends with the company
proxy, and every relationship before it references the company's id. -/
theorem parse_company_stream {row : MdRow} {w : List Str} {s : List Proxy}
    (h : parse_company row = .ok (w, s)) (hne : s ≠ []) :
    (s.getLast?).map Proxy.schema = some "Company".data ∧
    ∀ cid, mdCompanyId row = some cid →
      (s.getLast?).map Proxy.id = some (some cid) ∧
      ∀ p ∈ s.dropLast, isRelKind p.schema = true →
        ("organization".data, cid) ∈ p.props ∨ ("asset".data, cid) ∈ p.props := by
  unfold parse_company at h
  cases hid : mdCompanyId row with
  | none => rw [hid] at h; cases h; exact absurd rfl hne
  | some cid =>
    rw [hid] at h
    dsimp only at h
    have hcne : cid ≠ [] := mdCompanyId_ne_nil hid
    cases h1 : parse_directors cid row.directors with
    | error e => rw [h1, except_bind_er] at h; cases h
    | ok pr1 =>
      obtain ⟨w1, e1⟩ := pr1
      rw [h1, except_bind_ok] at h
      dsimp only at h
      cases h2 : parse_founders cid row.founders with
      | error e => rw [h2, except_bind_er] at h; cases h
      | ok pr2 =>
        obtain ⟨w2, e2⟩ := pr2
        rw [h2, except_bind_ok] at h
        dsimp only at h
        cases h3 : parse_owners cid row.owners with
        | error e => rw [h3, except_bind_er] at h; cases h
        | ok pr3 =>
          obtain ⟨w3, e3⟩ := pr3
          rw [h3, except_bind_ok] at h
          dsimp only at h
          cases h
          constructor
          · rw [List.getLast?_concat]
            rfl
          · intro cid' hcid'
            cases hcid'
            constructor
            · rw [List.getLast?_concat]
              rfl
            · intro p hp hrel
              rw [List.dropLast_concat] at hp
              rcases List.mem_append.mp hp with hp12 | hp3
              · rcases List.mem_append.mp hp12 with hp1 | hp2
                · exact Or.inl (parse_directors_rel h1 hcne p hp1 hrel)
                · exact Or.inr (parse_founders_rel h2 hcne p hp2 hrel)
              · exact Or.inr (parse_owners_rel h3 hcne p hp3 hrel)

/-- The first proxy emitted by `parse_record` is the company (never a
relationship). -/
theorem parse_record_head {r : DeCompanyRecord} {os : List OfficerData}
    {w : List Str} {s : List Proxy}
    (h : parse_record r os = .ok (w, s)) :
    (s[0]?).map (fun p => isRelKind p.schema) = some false := by
  unfold parse_record at h
  cases hc : make_company r with
  | error e => rw [hc, except_bind_er] at h; cases h
  | ok comp =>
    rw [hc, except_bind_ok] at h
    cases hm : os.mapM (make_officer_and_rel comp) with
    | error e => rw [hm, except_bind_er] at h; cases h
    | ok steps =>
      rw [hm, except_bind_ok] at h
      cases h
      simp [make_company_schema hc]

/-! ## Claim theorems -/

/-- C2 counterexample: `company_id` is plain concatenation, not a hash,
and the recognised codes `B` and `N` (prefixes `B` and `BN`) overlap:
the distinct natural keys `("B", "N123")` and `("N", "123")` map to the
same id `oc-companies-cy-bn123`. -/
theorem C2_counterexample :
    company_id "B".data "N123".data = company_id "N".data "123".data ∧
    ¬(("B".data : Str) = "N".data ∧ ("N123".data : Str) = "123".data) := by
  exact ⟨by decide, by decide⟩

/-- C2 amended: restricted to registration numbers consisting of decimal
digits (their shape in the source registry), `company_id` is injective on
recognised natural keys: equal ids force equal codes and equal
registration numbers.  Without the digit restriction the claim fails
(see the counterexample). -/
theorem C2_amended (t1 n1 t2 n2 : Str)
    (h1 : (TYPES.lookup t1).isSome = true) (h2 : (TYPES.lookup t2).isSome = true)
    (d1 : n1.all Char.isDigit = true) (d2 : n2.all Char.isDigit = true)
    (heq : company_id t1 n1 = company_id t2 n2) : t1 = t2 ∧ n1 = n2 := by
  obtain ⟨oc1, hoc1⟩ := Option.isSome_iff_exists.mp h1
  obtain ⟨oc2, hoc2⟩ := Option.isSome_iff_exists.mp h2
  rw [company_id_some hoc1, company_id_some hoc2,
      pyLower_digits d1, pyLower_digits d2] at heq
  simp only [Option.some.injEq] at heq
  have key := List.append_cancel_left heq
  have hm1 := lookup_mem_pair hoc1
  have hm2 := lookup_mem_pair hoc2
  simp only [TYPES, List.mem_cons, List.not_mem_nil, or_false, Prod.mk.injEq] at hm1 hm2
  rcases hm1 with ⟨rfl, rfl⟩|⟨rfl, rfl⟩|⟨rfl, rfl⟩|⟨rfl, rfl⟩|⟨rfl, rfl⟩ <;>
    rcases hm2 with ⟨rfl, rfl⟩|⟨rfl, rfl⟩|⟨rfl, rfl⟩|⟨rfl, rfl⟩|⟨rfl, rfl⟩ <;>
    first
      | exact ⟨rfl, List.append_cancel_left key⟩
      | exact absurd key (append_ne_headD (by decide) (by decide) (by decide))
      | exact absurd key (b_bn_ne d1)
      | exact absurd key (fun e => b_bn_ne d2 e.symm)

/-- Witness for C2 amended at the concrete key `("C", "123")`. -/
theorem C2_amended_witness :
    ("C".data : Str) = "C".data ∧ ("123".data : Str) = "123".data :=
  C2_amended "C".data "123".data "C".data "123".data
    (by decide) (by decide) (by decide) (by decide) (by decide)

/-- C5: decomposing `"Alice [Director], Bob [Secretary]"` with item
separator `"],"` and tag delimiters `[`/`]` yields exactly two
sub-records, `("Alice", "Director")` and `("Bob", "Secretary")`, the tag
being taken at the rightmost `[` (shown by the second conjunct, where the
body itself contains a bracketed part), and `parse_directors`
correspondingly emits entity/edge pairs for exactly those two
sub-records. -/
theorem C5_director_decomposition :
    (splitSep "],".data "Alice [Director], Bob [Secretary]".data).filterMap
        directorSubRecord =
      [("Alice".data, some "Director".data), ("Bob".data, some "Secretary".data)] ∧
    directorTagSplit "Us [X] Co [Role]".data = ("Us [X] Co ".data, some "Role".data) ∧
    ((parse_directors "c".data (.vstr "Alice [Director], Bob [Secretary]".data)).toOption.map
      (fun r => r.2.map Proxy.schema)) =
      some ["LegalEntity".data, "Directorship".data,
            "LegalEntity".data, "Directorship".data] := by
  refine ⟨by decide, by decide, by decide⟩

/-- C6: the free-text reference extractor on
`"HA Invest GmbH, Hamburg (Amtsgericht Hamburg HRB 125617)."` succeeds on
the first (most specific) grammar and captures name, city, reg_type and
reg_nr as claimed. -/
theorem C6_extractor_match :
    parse_officer_company_name
        "HA Invest GmbH, Hamburg (Amtsgericht Hamburg HRB 125617).".data =
      some { name := "HA Invest GmbH".data, city := some "Hamburg".data,
             reg := "Hamburg".data, reg_type := "HRB".data,
             reg_nr := "125617".data, summary := ".".data } ∧
    (reMatch patternWithCity
        "HA Invest GmbH, Hamburg (Amtsgericht Hamburg HRB 125617).".data).isSome
      = true := by
  refine ⟨by decide, by decide⟩

/-- C3 counterexample: on the founders string `"Alice (50),"` the trailing
separator produces an empty fragment whose trimmed body (length 0 < 3)
nevertheless yields an entity and an Ownership edge — `parse_founders`
emits four proxies, not two, because the minimum-length threshold exists
only in `parse_directors`. -/
theorem C3_counterexample :
    splitSep "),".data "Alice (50),".data = ["Alice (50".data, []] ∧
    (founderSubRecord []).1 = [] ∧
    founderEmits "c".data [] ≠ [] ∧
    ((parse_founders "c".data (.vstr "Alice (50),".data)).toOption.map
      (fun r => r.2.length)) = some 4 := by
  refine ⟨by decide, by decide, by decide, by decide⟩

/-- C3 amended: only `parse_directors` drops fragments whose trimmed body
is shorter than 3 characters; `parse_founders` and `parse_owners` emit an
entity/edge pair for every fragment, even an empty one.  The
`"Alice [Director],"` example does hold for directors: the trailing empty
fragment is dropped and exactly one sub-record (two proxies) results. -/
theorem C3_amended :
    (∀ cid frag : Str, (directorBody frag).length < 3 →
      directorEmits cid frag = []) ∧
    (∀ cid frag : Str, (founderEmits cid frag).length = 2) ∧
    (∀ cid frag : Str, (ownerEmits cid frag).length = 2) ∧
    ((parse_directors "c".data (.vstr "Alice [Director],".data)).toOption.map
      (fun r => r.2.length)) = some 2 := by
  refine ⟨?_, ?_, ?_, by decide⟩
  · intro cid frag h
    simp [directorEmits, directorSubRecord, h]
  · intro cid frag
    rfl
  · intro cid frag
    rfl

/-- Witness for C3 amended, at the empty fragment of
`"Alice [Director],"`. -/
theorem C3_amended_witness :
    (directorBody []).length < 3 ∧ directorEmits "c".data [] = [] :=
  ⟨by decide, C3_amended.1 "c".data [] (by decide)⟩

/-- C4 counterexample: integer input makes `parse_directors` and
`parse_owners` raise `AttributeError` (there is no isinstance guard in
either), rather than warn-and-return as the claim states for every
decomposer. -/
theorem C4_counterexample :
    parse_directors "c".data (.vint 7) =
      .error "AttributeError: int object has no attribute split".data ∧
    parse_owners "c".data (.vint 7) =
      .error "AttributeError: int object has no attribute split".data := by
  exact ⟨rfl, rfl⟩

/-- C4 amended: only `parse_founders` guards against integer input,
logging a warning and emitting zero sub-records; `parse_directors` and
`parse_owners` raise on the same input. -/
theorem C4_amended :
    ∀ (cid : Str) (n : Int),
      parse_founders cid (.vint n) = .ok (["last line".data], []) ∧
      parse_directors cid (.vint n) =
        .error "AttributeError: int object has no attribute split".data ∧
      parse_owners cid (.vint n) =
        .error "AttributeError: int object has no attribute split".data := by
  intro cid n
  exact ⟨rfl, rfl, rfl⟩

/-- C10: the Ownership edge id emitted for a founder or owner sub-record
is a function of the company id and the trimmed body alone — two
sub-records of the same company with the same body (whatever their
percentage or country tags) receive the same Ownership id — whereas the
Directorship id additionally includes the role tag. -/
theorem C10_ownership_id_ignores_tag :
    (∀ cid f1 f2 : Str, (founderSubRecord f1).1 = (founderSubRecord f2).1 →
      ((founderEmits cid f1)[1]?).map Proxy.id =
        ((founderEmits cid f2)[1]?).map Proxy.id) ∧
    (∀ cid o1 o2 : Str, (ownerSubRecord o1).1 = (ownerSubRecord o2).1 →
      ((ownerEmits cid o1)[1]?).map Proxy.id =
        ((ownerEmits cid o2)[1]?).map Proxy.id) ∧
    (∀ (cid frag b : Str) (r : Option Str), directorSubRecord frag = some (b, r) →
      ((directorEmits cid frag)[1]?).map Proxy.id =
        some (make_id [some "Directorship".data, some cid, some b, r])) := by
  refine ⟨?_, ?_, ?_⟩
  · intro cid f1 f2 h
    simp [founderEmits, h]
  · intro cid o1 o2 h
    simp [ownerEmits, h]
  · intro cid frag b r h
    simp [directorEmits, h]

/-- C9 counterexample: a registration date that does not parse raises
`ValueError`, which propagates out of `parse_organisations` and aborts
the remaining rows (the subsequent well-formed row, which alone yields
one entity, is never processed) — not a record-only skip. -/
theorem C9_counterexample :
    (parse_organisations [] [cyRowBadDate, cyRowGood]).toOption = none ∧
    (parse_organisations [] [cyRowGood]).toOption.map List.length = some 1 := by
  exact ⟨by decide, by decide⟩

/-- C9 amended: `parse_date` returns null for null or whitespace-only
input and parses the fixed `%d/%m/%Y` format otherwise, but a date that
fails to parse raises `ValueError`, which `parse_organisations` does not
catch: the exception propagates from the offending row and aborts the
whole run (there is no per-record skip for coercion failures). -/
theorem C9_amended :
    parse_date none = .ok none ∧
    (∀ s : Str, pyStrip s = [] → parse_date (some s) = .ok none) ∧
    parse_date (some "05/11/1999".data) = .ok (some ⟨5, 11, 1999⟩) ∧
    (∀ s e : Str, pyStrip s ≠ [] → strptime_dmY s = .error e →
      parse_date (some s) = .error e) ∧
    (∀ (addrs : List (Str × Str)) (row : CyRow) (rows : List CyRow) (e : Str),
      parse_organisation_row addrs row = .error e →
      parse_organisations addrs (row :: rows) = .error e) := by
  refine ⟨rfl, ?_, by decide, ?_, ?_⟩
  · intro s h
    simp [parse_date, h]
  · intro s e h1 h2
    simp [parse_date, h1, h2, Except.map]
  · intro addrs row rows e h
    unfold parse_organisations
    rw [h]
    rfl

/-- Witness for C9 amended: whitespace-only input maps to null, and the
bad-date row aborts the run with the propagated `ValueError`. -/
theorem C9_amended_witness :
    parse_date (some "  ".data) = .ok none ∧
    parse_organisations [] [cyRowBadDate, cyRowGood] =
      .error "ValueError: time data does not match format".data :=
  ⟨C9_amended.2.1 "  ".data (by decide),
   C9_amended.2.2.2.2 [] cyRowBadDate [cyRowGood]
     "ValueError: time data does not match format".data (by decide)⟩

/-- C8 counterexample: an unmapped relationship-role code makes
`make_rel` raise `KeyError` (aborting, not skipping); an unmapped
register code makes `make_company` raise `KeyError`; and an unknown
officer type is logged but *not* skipped — a `LegalEntity` fallback and
its edge are still emitted (one warning, two proxies). -/
theorem C8_counterexample :
    make_rel deParentEx officerProxyEx "Treuhänder".data [] none =
      .error ("KeyError".data ++ "Treuhänder".data) ∧
    make_company { deRecordEx with registerArt := "XXX".data } =
      .error ("KeyError".data ++ "XXX".data) ∧
    (make_officer_and_rel deParentEx
        { officerPersonEx with type_ := "robot".data }).toOption.map
      (fun r => (r.1.length, r.2.length)) = some (1, 2) := by
  exact ⟨by decide, by decide, by decide⟩

/-- C8 amended: an unknown relationship-role code or register code raises
an uncaught `KeyError` (fatal, not skip-and-continue), while an unknown
officer type is logged with the offending code and handled by emitting a
`LegalEntity` fallback officer together with its relationship — in no
case is the record or sub-record silently skipped. -/
theorem C8_amended :
    (∀ (c off : Proxy) (pos : Str) (other : List (Str × Str))
        (summ : Option Str), REL_SCHEMS.lookup pos = none →
      make_rel c off pos other summ = .error ("KeyError".data ++ pos)) ∧
    (∀ r : DeCompanyRecord, SCHEMES.lookup r.registerArt = none →
      make_company r = .error ("KeyError".data ++ r.registerArt)) ∧
    (∀ (c : Proxy) (d : OfficerData), d.type_ ≠ "company".data →
      d.type_ ≠ "person".data →
      (mkOfficer c d).1 = ["Unknown type".data ++ d.type_] ∧
      (mkOfficer c d).2.1.schema = "LegalEntity".data) ∧
    (∀ (c : Proxy) (d : OfficerData) (w : List Str) (s : List Proxy),
      make_officer_and_rel c d = .ok (w, s) → s.length = 2) := by
  refine ⟨?_, ?_, ?_, ?_⟩
  · intro c off pos other summ h
    simp [make_rel, h]
  · intro r h
    simp [make_company, h]
  · intro c d h1 h2
    constructor
    · simp [mkOfficer, h1, h2]
    · simp [mkOfficer, h1, h2]
  · intro c d w s h
    unfold make_officer_and_rel at h
    exact bind_pair_len h

/-- Witness for C8 amended at the unmapped role code `Treuhänder` and an
officer of unknown type `robot`. -/
theorem C8_amended_witness :
    make_rel deParentEx officerProxyEx "Treuhänder".data [] none =
      .error ("KeyError".data ++ "Treuhänder".data) ∧
    (mkOfficer deParentEx { officerPersonEx with type_ := "robot".data }).1 =
      ["Unknown type".data ++ "robot".data] :=
  ⟨C8_amended.1 deParentEx officerProxyEx "Treuhänder".data [] none (by decide),
   (C8_amended.2.2.1 deParentEx { officerPersonEx with type_ := "robot".data }
     (by decide) (by decide)).1⟩

/-- C1 counterexample: on a concrete well-formed record with one person
officer, `parse_record` emits the stream `[company, Directorship,
person]` — the Directorship at index 1 references the officer emitted
only at index 2, so the at-or-before ordering property is false. -/
theorem C1_counterexample :
    ((parse_record deRecordEx [officerPersonEx]).toOption.map
      (fun r => (claimOrderingHolds r.2, r.2.length))) = some (false, 3) := by
  decide

/-- C1 amended: every relationship does reference already-constructed
ids, but the emission order differs from the claim.  In de_offeneregister
`make_officer_and_rel` emits exactly two proxies — the Directorship or
Ownership edge first, immediately followed by the officer entity it
references — and `parse_record` emits the company before all of them; in
md_companies each successful `parse_company` run emits the company proxy
*last*, after all Directorship/Ownership edges that reference its id. -/
theorem C1_amended :
    (∀ (c : Proxy) (d : OfficerData) (w : List Str) (s : List Proxy),
      make_officer_and_rel c d = .ok (w, s) →
      s.length = 2 ∧
      s[1]? = some (officerProxyOf c d) ∧
      isRelKind (officerProxyOf c d).schema = false ∧
      ∀ rel, s[0]? = some rel →
        isRelKind rel.schema = true ∧
        ∀ i, (officerProxyOf c d).id = some i →
          ("director".data, i) ∈ rel.props ∨ ("owner".data, i) ∈ rel.props) ∧
    (∀ (r : DeCompanyRecord) (os : List OfficerData) (w : List Str)
        (s : List Proxy), parse_record r os = .ok (w, s) →
      (s[0]?).map (fun p => isRelKind p.schema) = some false) ∧
    (∀ (row : MdRow) (w : List Str) (s : List Proxy),
      parse_company row = .ok (w, s) → s ≠ [] →
      (s.getLast?).map Proxy.schema = some "Company".data ∧
      ∀ cid, mdCompanyId row = some cid →
        (s.getLast?).map Proxy.id = some (some cid) ∧
        ∀ p ∈ s.dropLast, isRelKind p.schema = true →
          ("organization".data, cid) ∈ p.props ∨ ("asset".data, cid) ∈ p.props) :=
  ⟨fun _ _ _ _ h => make_officer_and_rel_stream h,
   fun _ _ _ _ h => parse_record_head h,
   fun _ _ _ h hne => parse_company_stream h hne⟩

/-- Witness for C1 amended on the example person officer: the stream has
two proxies and the officer sits at index 1, after its edge. -/
theorem C1_amended_witness :
    c1StreamEx.length = 2 ∧
    c1StreamEx[1]? = some (officerProxyOf deParentEx officerPersonEx) :=
  ⟨(C1_amended.1 deParentEx officerPersonEx [] c1StreamEx (by decide)).1,
   (C1_amended.1 deParentEx officerPersonEx [] c1StreamEx (by decide)).2.1⟩

/-- C7: when no grammar matches, `parse_officer_company_name` returns
null and `make_officer_and_rel` falls back without raising: the whole
text becomes the officer-company's name and its id is the opaque slug
scoped by the parent company's id (the shape of
`fallbackCompanyOfficer`), the relationship being emitted first as
always. -/
theorem C7_extractor_fallback (c : Proxy) (s pos : Str)
    (hmatch : parse_officer_company_name s = none)
    (relE : Proxy)
    (hrel : make_rel c (fallbackCompanyOfficer c s) pos [] none = .ok relE) :
    make_officer_and_rel c
        { type_ := "company".data, name := s, position := pos,
          other_attributes := [] } =
      .ok ([], [relE, fallbackCompanyOfficer c s]) := by
  unfold make_officer_and_rel officerProxyOf mkOfficer
  simp only [hmatch]
  dsimp only [applyMapping, List.foldl_nil]
  simp only [if_true]
  rw [hrel]
  rfl

/-- Witness for C7 at the unmatchable free text `"John Smith"` with role
code `Prokurist` under the example parent company. -/
theorem C7_extractor_fallback_witness :
    make_officer_and_rel deParentEx
        { type_ := "company".data, name := "John Smith".data,
          position := "Prokurist".data, other_attributes := [] } =
      .ok ([],
        [{ schema := "Directorship".data,
           id := some ("de_offeneregister-rel-eid:de_offeneregister-x.de_offeneregister-officer-eid:de_offeneregister-x.john smith.Prokurist".data),
           props := [("director".data,
               "de_offeneregister-officer-eid:de_offeneregister-x.john smith".data),
             ("organization".data, "de_offeneregister-x".data),
             ("role".data, "Prokurist".data)] },
         fallbackCompanyOfficer deParentEx "John Smith".data]) :=
  C7_extractor_fallback deParentEx "John Smith".data "Prokurist".data
    (by decide) _ (by decide)

/-- Witness for C10 at two founder fragments with equal bodies and
different percentage tags. -/
theorem C10_ownership_id_ignores_tag_witness :
    (founderSubRecord "Alice (50".data).1 = (founderSubRecord "Alice (99".data).1 ∧
    (founderSubRecord "Alice (50".data).2 ≠ (founderSubRecord "Alice (99".data).2 ∧
    ((founderEmits "c".data "Alice (50".data)[1]?).map Proxy.id =
      ((founderEmits "c".data "Alice (99".data)[1]?).map Proxy.id :=
  ⟨by decide, by decide,
    C10_ownership_id_ignores_tag.1 "c".data "Alice (50".data "Alice (99".data
      (by decide)⟩

end OSGraph
